import Mathlib

/-! Shallow embedding of the streaming-service backend.

The route handlers are translated from src/app.py; the relational schema
(primary keys, unique constraints, foreign keys and their cascade rules)
comes from src/setup_database.py.  Each handler is a pure function from a
database state plus request data to a response together with the database
state after commit (or after rollback, which restores the input state).
Library calls that are external to the repository are made explicit
parameters: freshly assigned serial ids, the bcrypt hash of a password
(bcrypt.gensalt makes it nondeterministic), and the outcome of jwt.decode
on the presented token. -/

/-- Row of the subscriptions table (monthly_price, a DECIMAL, is modelled
as an integer number of cents; no claim inspects it). -/
structure Subscription where
  subscription_id : Nat
  name : String
  monthly_price : Int
  max_profiles : Int
deriving DecidableEq

/-- Row of the accounts table; subscription_id is nullable (ON DELETE SET
NULL from subscriptions). -/
structure Account where
  account_id : Nat
  email : String
  password_hash : String
  subscription_id : Option Nat
deriving DecidableEq

/-- Row of the profiles table (account_id: ON DELETE CASCADE from
accounts). -/
structure Profile where
  profile_id : Nat
  account_id : Nat
  name : String
  age_rating_pref : String
deriving DecidableEq

/-- Row of the content table.  The handlers under test only ever insert
all four data columns, so description and release_year are modelled
non-nullable. -/
structure Content where
  content_id : Nat
  title : String
  ctype : String
  description : String
  release_year : Int
deriving DecidableEq

/-- Row of the genres table (name UNIQUE). -/
structure Genre where
  genre_id : Nat
  name : String
deriving DecidableEq

/-- Row of the content_genres junction table (composite primary key, both
columns ON DELETE CASCADE). -/
structure ContentGenre where
  content_id : Nat
  genre_id : Nat
deriving DecidableEq

/-- Row of the media_files table (content_id: ON DELETE CASCADE). -/
structure MediaFile where
  media_id : Nat
  content_id : Nat
  resolution : String
  language : String
  file_path : String
deriving DecidableEq

/-- Row of the seasons table (content_id: ON DELETE CASCADE; UNIQUE
(content_id, season_number)). -/
structure Season where
  season_id : Nat
  content_id : Nat
  season_number : Int
deriving DecidableEq

/-- Row of the episodes table (season_id: ON DELETE CASCADE; UNIQUE
(season_id, episode_number)). -/
structure Episode where
  episode_id : Nat
  season_id : Nat
  title : String
  episode_number : Int
deriving DecidableEq

/-- Row of the wishlist table (composite primary key (profile_id,
content_id); both foreign keys ON DELETE CASCADE). -/
structure WishlistEntry where
  profile_id : Nat
  content_id : Nat
deriving DecidableEq

/-- Row of the viewing_history table (composite primary key (profile_id,
content_id); both foreign keys ON DELETE CASCADE). -/
structure HistoryEntry where
  profile_id : Nat
  content_id : Nat
  last_timestamp : Int
deriving DecidableEq

/-- The whole database state: one list of rows per table (the admins
table is never touched by the handlers under test). -/
structure DB where
  subscriptions : List Subscription
  accounts : List Account
  profiles : List Profile
  contents : List Content
  genres : List Genre
  content_genres : List ContentGenre
  media_files : List MediaFile
  seasons : List Season
  episodes : List Episode
  wishlist : List WishlistEntry
  viewing_history : List HistoryEntry
deriving DecidableEq

/-- Response body: either the error object {"error": msg}, a confirmation
message object, or the JSON projection a successful read or create
returns. -/
inductive Body where
  | err (msg : String)
  | msg (m : String)
  | profileJson (profile_id : Nat) (name age_rating_pref : String)
  | createdProfile (profile_id : Nat) (name age_rating_pref : String)
  | historyJson (content_id : Nat) (last_timestamp : Int)
  | historyList (items : List HistoryEntry)
  | wishlistList (items : List (Nat × String))
  | registerJson (account_id : Nat) (email : String) (subscription_id : Nat)
  | contentJson (content_id : Nat) (title ctype description : String) (release_year : Int)
  | episodeJson (episode_id : Nat) (title : String) (episode_number : Int)
  | subscriptionJson (subscription_id : Nat) (name : String)
      (monthly_price max_profiles : Int)
  | accountJson (account_id : Nat) (email : String) (subscription_id : Option Nat)
deriving DecidableEq

/-- An HTTP response: status code and JSON body. -/
structure Resp where
  status : Nat
  body : Body
deriving DecidableEq

/-- Truthiness of data.get(key) for a string-valued JSON field: absent
(None) and the empty string are falsy in Python. -/
def truthyStr : Option String → Bool
  | none => false
  | some s => s ≠ ""

/-- Truthiness of data.get(key) for an integer-valued id field: absent
(None) and 0 are falsy in Python. -/
def truthyNat : Option Nat → Bool
  | none => false
  | some n => n ≠ 0

/-- SELECT ... FROM profiles WHERE profile_id = pid AND account_id = aid
(profile_id is the primary key, so find? returns the unique match). -/
def DB.findProfile (db : DB) (pid aid : Nat) : Option Profile :=
  db.profiles.find? (fun p => p.profile_id == pid && p.account_id == aid)

/-- Ownership check used by every profile-scoped handler: does a profile
row with this id exist under this account. -/
def DB.profileOwned (db : DB) (pid aid : Nat) : Bool :=
  (db.findProfile pid aid).isSome

/-- Existence check against the content table (used for the content
foreign key of wishlist and viewing_history inserts). -/
def DB.contentExists (db : DB) (cid : Nat) : Bool :=
  db.contents.any (fun c => c.content_id == cid)

/-- Existence check against the accounts table. -/
def DB.accountExists (db : DB) (aid : Nat) : Bool :=
  db.accounts.any (fun a => a.account_id == aid)

/-! Authorization middleware (token_required and admin_token_required in
src/app.py).  The jwt.decode library call is abstracted: the guard input
is None when the Authorization header is absent, otherwise the outcome of
decoding the presented token — a failure of one of the three kinds the
spec distinguishes, or the decoded claims.  A claims field is None when
the corresponding key is absent from the payload; is_admin is the
truthiness of data.get of the key. -/

/-- Reason a jwt.decode call raises (all are caught by the bare except in
the guards). -/
inductive TokenFailure where
  | malformed
  | expired
  | badSignature
deriving DecidableEq

/-- Decoded JWT payload as the guards read it. -/
structure Claims where
  account_id : Option Nat
  admin_id : Option Nat
  is_admin : Bool
deriving DecidableEq

/-- Outcome of jwt.decode on a presented token. -/
inductive DecodeResult where
  | fail (k : TokenFailure)
  | ok (c : Claims)
deriving DecidableEq

/-- Result of a guard: either a short-circuit error response or the
resolved principal id passed to the wrapped handler. -/
inductive GuardResult where
  | deny (status : Nat) (msg : String)
  | allow (principal : Nat)
deriving DecidableEq

/-- token_required (src/app.py lines 32-49): 401 when the header is
missing; 401 when decode raises or the account_id claim is absent (the
KeyError is caught by the same bare except); otherwise invoke the handler
with the account id. -/
def token_required : Option DecodeResult → GuardResult
  | none => .deny 401 "Token is missing"
  | some (.fail _) => .deny 401 "Token is invalid"
  | some (.ok c) =>
      match c.account_id with
      | none => .deny 401 "Token is invalid"
      | some a => .allow a

/-- admin_token_required (src/app.py lines 51-70): 401 when the header is
missing; after a successful decode, 403 when the is_admin claim is falsy;
401 when decode raises or the admin_id claim is absent. -/
def admin_token_required : Option DecodeResult → GuardResult
  | none => .deny 401 "Token is missing"
  | some (.fail _) => .deny 401 "Token is invalid"
  | some (.ok c) =>
      if c.is_admin then
        match c.admin_id with
        | none => .deny 401 "Token is invalid"
        | some a => .allow a
      else .deny 403 "Admin access required"

/-- Request body of POST /api/auth/register. -/
structure RegisterReq where
  email : Option String
  password : Option String
  subscription_id : Option Nat
deriving DecidableEq

/-- register (src/app.py lines 89-145).  newId is the serial account_id
the insert returns; hashed is the bcrypt hash of the password (the salt
makes it nondeterministic, so it is an input). -/
def register (db : DB) (req : RegisterReq) (newId : Nat) (hashed : String) :
    Resp × DB :=
  if !(truthyStr req.email && truthyStr req.password) then
    ({ status := 400, body := .err "Email and password required" }, db)
  else if !(truthyNat req.subscription_id) then
    ({ status := 400, body := .err "subscription_id required" }, db)
  else
    let email := req.email.getD ""
    if db.accounts.any (fun a => a.email == email) then
      ({ status := 400, body := .err "Email already exists" }, db)
    else
      let sid := req.subscription_id.getD 0
      if !(db.subscriptions.any (fun s => s.subscription_id == sid)) then
        ({ status := 404, body := .err "Subscription not found" }, db)
      else
        ({ status := 201, body := .registerJson newId email sid },
         { db with accounts := db.accounts ++
             [{ account_id := newId, email := email,
                password_hash := hashed, subscription_id := some sid }] })

/-- Result row of the profile-limit query in create_profile: None when
the account does not exist (no group), otherwise (s.max_profiles, which
is NULL when the account has no subscription, and the count of the
profiles of the account). -/
def profileLimitRow (db : DB) (aid : Nat) : Option (Option Int × Nat) :=
  match db.accounts.find? (fun a => a.account_id == aid) with
  | none => none
  | some a =>
      let maxP : Option Int :=
        match a.subscription_id with
        | none => none
        | some sid =>
            (db.subscriptions.find?
              (fun s => s.subscription_id == sid)).map (·.max_profiles)
      some (maxP, (db.profiles.filter (fun p => p.account_id == aid)).length)

/-- Python condition `result and result['max_profiles'] and
result['current_profiles'] >= result['max_profiles']`: the limit fires
only when the query returned a row, its max_profiles is truthy (not NULL
and not 0), and the count is at or over it. -/
def profileLimited (db : DB) (aid : Nat) : Bool :=
  match profileLimitRow db aid with
  | some (some m, cnt) => m ≠ 0 && m ≤ (cnt : Int)
  | _ => false

/-- create_profile (src/app.py lines 328-374).  The insert violates the
account foreign key — 500 after rollback — when the authenticated account
row no longer exists. -/
def create_profile (db : DB) (aid : Nat) (name age_rating_pref : Option String)
    (newPid : Nat) : Resp × DB :=
  if !(truthyStr name && truthyStr age_rating_pref) then
    ({ status := 400, body := .err "name and age_rating_pref required" }, db)
  else
    if profileLimited db aid then
      ({ status := 400, body := .err "Profile limit reached" }, db)
    else if !(db.accountExists aid) then
      ({ status := 500, body := .err "IntegrityError" }, db)
    else
      ({ status := 201,
         body := .createdProfile newPid (name.getD "") (age_rating_pref.getD "") },
       { db with profiles := db.profiles ++
           [{ profile_id := newPid, account_id := aid,
              name := name.getD "", age_rating_pref := age_rating_pref.getD "" }] })

/-! Profile-scoped routes.  Every one of them first runs the ownership
check SELECT profile_id FROM profiles WHERE profile_id = pid AND
account_id = aid and answers 404 "Profile not found" when it returns no
row — whether the profile belongs to a different account or does not
exist at all. -/

/-- get_profile (src/app.py lines 376-395). -/
def get_profile (db : DB) (aid pid : Nat) : Resp × DB :=
  match db.findProfile pid aid with
  | none => ({ status := 404, body := .err "Profile not found" }, db)
  | some p =>
      ({ status := 200, body := .profileJson p.profile_id p.name p.age_rating_pref }, db)

/-- update_profile (src/app.py lines 397-430): after the ownership check,
one UPDATE per truthy field, each with WHERE profile_id = pid only. -/
def update_profile (db : DB) (aid pid : Nat) (name age_rating_pref : Option String) :
    Resp × DB :=
  if !(db.profileOwned pid aid) then
    ({ status := 404, body := .err "Profile not found" }, db)
  else
    let db1 :=
      if truthyStr name then
        { db with profiles :=
            db.profiles.map (fun p =>
              if p.profile_id == pid then { p with name := name.getD "" } else p) }
      else db
    let db2 :=
      if truthyStr age_rating_pref then
        { db1 with profiles :=
            db1.profiles.map (fun p =>
              if p.profile_id == pid then
                { p with age_rating_pref := age_rating_pref.getD "" }
              else p) }
      else db1
    ({ status := 200, body := .msg "Profile updated" }, db2)

/-- delete_profile (src/app.py lines 432-453): DELETE ... WHERE
profile_id = pid AND account_id = aid; 404 when rowcount is 0.  The
schema cascades the delete to wishlist and viewing_history rows of the
deleted profile. -/
def delete_profile (db : DB) (aid pid : Nat) : Resp × DB :=
  if !(db.profileOwned pid aid) then
    ({ status := 404, body := .err "Profile not found" }, db)
  else
    ({ status := 200, body := .msg "Profile deleted" },
     { db with
         profiles :=
           db.profiles.filter (fun p => !(p.profile_id == pid && p.account_id == aid)),
         wishlist := db.wishlist.filter (fun w => !(w.profile_id == pid)),
         viewing_history := db.viewing_history.filter (fun h => !(h.profile_id == pid)) })

/-- get_wishlist (src/app.py lines 599-622): inner join of the wishlist
rows of the profile against content. -/
def get_wishlist (db : DB) (aid pid : Nat) : Resp × DB :=
  if !(db.profileOwned pid aid) then
    ({ status := 404, body := .err "Profile not found" }, db)
  else
    ({ status := 200, body :=
        .wishlistList ((db.wishlist.filter (fun w => w.profile_id == pid)).filterMap
          (fun w => (db.contents.find? (fun c => c.content_id == w.content_id)).map
            (fun c => (c.content_id, c.title)))) }, db)

/-- add_to_wishlist (src/app.py lines 624-649): INSERT ... ON CONFLICT DO
NOTHING.  When the pair is already present nothing is inserted and the
content foreign key is not checked; when it is absent, inserting with a
content_id that has no content row violates the foreign key and the
handler rolls back to 500 (the profile foreign key is ensured by the
ownership check). -/
def add_to_wishlist (db : DB) (aid pid cid : Nat) : Resp × DB :=
  if !(db.profileOwned pid aid) then
    ({ status := 404, body := .err "Profile not found" }, db)
  else if db.wishlist.any (fun w => w.profile_id == pid && w.content_id == cid) then
    ({ status := 201, body := .msg "Added to wishlist" }, db)
  else if !(db.contentExists cid) then
    ({ status := 500, body := .err "IntegrityError" }, db)
  else
    ({ status := 201, body := .msg "Added to wishlist" },
     { db with wishlist :=
         db.wishlist ++ [{ profile_id := pid, content_id := cid }] })

/-- remove_from_wishlist (src/app.py lines 651-674): unconditional DELETE
of the pair, 200 even when no row matched. -/
def remove_from_wishlist (db : DB) (aid pid cid : Nat) : Resp × DB :=
  if !(db.profileOwned pid aid) then
    ({ status := 404, body := .err "Profile not found" }, db)
  else
    ({ status := 200, body := .msg "Removed from wishlist" },
     { db with wishlist :=
         db.wishlist.filter (fun w => !(w.profile_id == pid && w.content_id == cid)) })

/-- get_history (src/app.py lines 677-698). -/
def get_history (db : DB) (aid pid : Nat) : Resp × DB :=
  if !(db.profileOwned pid aid) then
    ({ status := 404, body := .err "Profile not found" }, db)
  else
    ({ status := 200,
       body := .historyList (db.viewing_history.filter (fun h => h.profile_id == pid)) }, db)

/-- get_history_item (src/app.py lines 700-725). -/
def get_history_item (db : DB) (aid pid cid : Nat) : Resp × DB :=
  if !(db.profileOwned pid aid) then
    ({ status := 404, body := .err "Profile not found" }, db)
  else
    match db.viewing_history.find?
        (fun h => h.profile_id == pid && h.content_id == cid) with
    | none => ({ status := 404, body := .err "History not found" }, db)
    | some h =>
        ({ status := 200, body := .historyJson h.content_id h.last_timestamp }, db)

/-- update_history (src/app.py lines 727-761): the last_timestamp-required
check runs before the ownership check; the write is INSERT ... ON
CONFLICT (profile_id, content_id) DO UPDATE SET last_timestamp.  On
conflict the existing row is overwritten and no foreign key is checked;
otherwise the insert requires an existing content row (the profile
foreign key is ensured by the ownership check), else rollback and 500. -/
def update_history (db : DB) (aid pid cid : Nat) (last_timestamp : Option Int) :
    Resp × DB :=
  match last_timestamp with
  | none => ({ status := 400, body := .err "last_timestamp required" }, db)
  | some t =>
      if !(db.profileOwned pid aid) then
        ({ status := 404, body := .err "Profile not found" }, db)
      else if db.viewing_history.any
          (fun h => h.profile_id == pid && h.content_id == cid) then
        ({ status := 200, body := .msg "History updated" },
         { db with viewing_history :=
             db.viewing_history.map (fun h =>
               if h.profile_id == pid && h.content_id == cid then
                 { h with last_timestamp := t }
               else h) })
      else if !(db.contentExists cid) then
        ({ status := 500, body := .err "IntegrityError" }, db)
      else
        ({ status := 200, body := .msg "History updated" },
         { db with viewing_history :=
             db.viewing_history ++
               [{ profile_id := pid, content_id := cid, last_timestamp := t }] })

/-- delete_history (src/app.py lines 763-786): unconditional DELETE of
the pair, 200 even when no row matched. -/
def delete_history (db : DB) (aid pid cid : Nat) : Resp × DB :=
  if !(db.profileOwned pid aid) then
    ({ status := 404, body := .err "Profile not found" }, db)
  else
    ({ status := 200, body := .msg "History removed" },
     { db with viewing_history :=
         db.viewing_history.filter (fun h => !(h.profile_id == pid && h.content_id == cid)) })

/-! Admin routes (all wrapped in admin_token_required; the handlers below
take the resolved principal implicitly and only the route parameters and
body fields explicitly). -/

/-- update_genre (src/app.py lines 1265-1287): 400 when name is not
truthy; otherwise an unconditional UPDATE with no existence check, so a
genre_id matching no row still commits and returns 200.  The UNIQUE
constraint on genres.name makes the UPDATE raise — rollback, 500 — when a
row is matched and a different genre already carries the new name. -/
def update_genre (db : DB) (gid : Nat) (name : Option String) : Resp × DB :=
  if !(truthyStr name) then
    ({ status := 400, body := .err "name required" }, db)
  else
    let n := name.getD ""
    if db.genres.any (fun g => g.genre_id == gid) &&
        db.genres.any (fun g => g.genre_id != gid && g.name == n) then
      ({ status := 500, body := .err "IntegrityError" }, db)
    else
      ({ status := 200, body := .msg "Genre updated" },
       { db with genres :=
           db.genres.map (fun g =>
             if g.genre_id == gid then { g with name := n } else g) })

/-- update_season (src/app.py lines 1383-1406): 400 when season_number is
absent; otherwise an unconditional UPDATE (200 even when the season_id
matches no row).  UNIQUE (content_id, season_number) raises when the
matched season would collide with a sibling season. -/
def update_season (db : DB) (sid : Nat) (season_number : Option Int) : Resp × DB :=
  match season_number with
  | none => ({ status := 400, body := .err "season_number required" }, db)
  | some num =>
      if db.seasons.any (fun s => s.season_id == sid &&
          db.seasons.any (fun s2 => s2.season_id != sid &&
            s2.content_id == s.content_id && s2.season_number == num)) then
        ({ status := 500, body := .err "IntegrityError" }, db)
      else
        ({ status := 200, body := .msg "Season updated" },
         { db with seasons :=
             db.seasons.map (fun s =>
               if s.season_id == sid then { s with season_number := num } else s) })

/-- update_episode (src/app.py lines 1460-1487): one UPDATE per supplied
field (title truthy, episode_number not None), no existence check.
UNIQUE (season_id, episode_number) raises — rolling back both updates —
when the matched episode would collide with a sibling episode. -/
def update_episode (db : DB) (eid : Nat) (title : Option String)
    (episode_number : Option Int) : Resp × DB :=
  let conflict :=
    match episode_number with
    | none => false
    | some num =>
        db.episodes.any (fun e => e.episode_id == eid &&
          db.episodes.any (fun e2 => e2.episode_id != eid &&
            e2.season_id == e.season_id && e2.episode_number == num))
  if conflict then
    ({ status := 500, body := .err "IntegrityError" }, db)
  else
    let db1 :=
      if truthyStr title then
        { db with episodes :=
            db.episodes.map (fun e =>
              if e.episode_id == eid then { e with title := title.getD "" } else e) }
      else db
    let db2 :=
      match episode_number with
      | none => db1
      | some num =>
          { db1 with episodes :=
              db1.episodes.map (fun e =>
                if e.episode_id == eid then { e with episode_number := num } else e) }
    ({ status := 200, body := .msg "Episode updated" }, db2)

/-- update_subscription_plan (src/app.py lines 900-932): one UPDATE per
supplied field, no existence check.  UNIQUE on subscriptions.name raises
when the matched plan would take the name of a different plan. -/
def update_subscription_plan (db : DB) (sid : Nat) (name : Option String)
    (max_profiles monthly_price : Option Int) : Resp × DB :=
  if truthyStr name && db.subscriptions.any (fun s => s.subscription_id == sid) &&
      db.subscriptions.any (fun s =>
        s.subscription_id != sid && s.name == name.getD "") then
    ({ status := 500, body := .err "IntegrityError" }, db)
  else
    let db1 :=
      if truthyStr name then
        { db with subscriptions :=
            db.subscriptions.map (fun s =>
              if s.subscription_id == sid then { s with name := name.getD "" } else s) }
      else db
    let db2 :=
      match max_profiles with
      | none => db1
      | some m =>
          { db1 with subscriptions :=
              db1.subscriptions.map (fun s =>
                if s.subscription_id == sid then { s with max_profiles := m } else s) }
    let db3 :=
      match monthly_price with
      | none => db2
      | some m =>
          { db2 with subscriptions :=
              db2.subscriptions.map (fun s =>
                if s.subscription_id == sid then { s with monthly_price := m } else s) }
    ({ status := 200, body := .msg "Subscription plan updated" }, db3)

/-- admin_update_account (src/app.py lines 992-1019): one UPDATE per
supplied field (email truthy, subscription_id not None), no existence
check.  UNIQUE on accounts.email and the subscription foreign key can
each make a matched update raise — rollback, 500. -/
def admin_update_account (db : DB) (aid : Nat) (email : Option String)
    (subscription_id : Option Nat) : Resp × DB :=
  let emailConflict := truthyStr email && db.accountExists aid &&
    db.accounts.any (fun a => a.account_id != aid && a.email == email.getD "")
  let fkViolation :=
    match subscription_id with
    | none => false
    | some s =>
        db.accountExists aid &&
          !(db.subscriptions.any (fun x => x.subscription_id == s))
  if emailConflict || fkViolation then
    ({ status := 500, body := .err "IntegrityError" }, db)
  else
    let db1 :=
      if truthyStr email then
        { db with accounts :=
            db.accounts.map (fun a =>
              if a.account_id == aid then { a with email := email.getD "" } else a) }
      else db
    let db2 :=
      match subscription_id with
      | none => db1
      | some s =>
          { db1 with accounts :=
              db1.accounts.map (fun a =>
                if a.account_id == aid then { a with subscription_id := some s } else a) }
    ({ status := 200, body := .msg "Account updated" }, db2)

/-- admin_update_content (src/app.py lines 1114-1146): one UPDATE per
supplied field (title and description truthy, release_year not None), no
existence check and no constraint that the updates could violate; always
200. -/
def admin_update_content (db : DB) (cid : Nat) (title description : Option String)
    (release_year : Option Int) : Resp × DB :=
  let db1 :=
    if truthyStr title then
      { db with contents :=
          db.contents.map (fun c =>
            if c.content_id == cid then { c with title := title.getD "" } else c) }
    else db
  let db2 :=
    if truthyStr description then
      { db1 with contents :=
          db1.contents.map (fun c =>
            if c.content_id == cid then { c with description := description.getD "" } else c) }
    else db1
  let db3 :=
    match release_year with
    | none => db2
    | some y =>
        { db2 with contents :=
            db2.contents.map (fun c =>
              if c.content_id == cid then { c with release_year := y } else c) }
  ({ status := 200, body := .msg "Content updated" }, db3)

/-- get_content_by_id (src/app.py lines 492-510). -/
def get_content_by_id (db : DB) (cid : Nat) : Resp × DB :=
  match db.contents.find? (fun c => c.content_id == cid) with
  | none => ({ status := 404, body := .err "Content not found" }, db)
  | some c =>
      ({ status := 200,
         body := .contentJson c.content_id c.title c.ctype c.description c.release_year },
       db)

/-- get_episode (src/app.py lines 578-596). -/
def get_episode (db : DB) (eid : Nat) : Resp × DB :=
  match db.episodes.find? (fun e => e.episode_id == eid) with
  | none => ({ status := 404, body := .err "Episode not found" }, db)
  | some e =>
      ({ status := 200, body := .episodeJson e.episode_id e.title e.episode_number }, db)

/-- get_subscription_by_id (src/app.py lines 879-898). -/
def get_subscription_by_id (db : DB) (sid : Nat) : Resp × DB :=
  match db.subscriptions.find? (fun s => s.subscription_id == sid) with
  | none => ({ status := 404, body := .err "Subscription not found" }, db)
  | some s =>
      ({ status := 200,
         body := .subscriptionJson s.subscription_id s.name s.monthly_price s.max_profiles },
       db)

/-- get_account_by_id (src/app.py lines 971-990). -/
def get_account_by_id (db : DB) (aid : Nat) : Resp × DB :=
  match db.accounts.find? (fun a => a.account_id == aid) with
  | none => ({ status := 404, body := .err "Account not found" }, db)
  | some a =>
      ({ status := 200, body := .accountJson a.account_id a.email a.subscription_id }, db)

/-- admin_get_content_by_id (src/app.py lines 1093-1112). -/
def admin_get_content_by_id (db : DB) (cid : Nat) : Resp × DB :=
  match db.contents.find? (fun c => c.content_id == cid) with
  | none => ({ status := 404, body := .err "Content not found" }, db)
  | some c =>
      ({ status := 200,
         body := .contentJson c.content_id c.title c.ctype c.description c.release_year },
       db)

/-- admin_delete_content (src/app.py lines 1148-1168): DELETE by
content_id, 404 when rowcount is 0.  Per the schema the delete cascades
to seasons (and through them episodes), media_files, content_genres,
wishlist and viewing_history. -/
def admin_delete_content (db : DB) (cid : Nat) : Resp × DB :=
  if !(db.contentExists cid) then
    ({ status := 404, body := .err "Content not found" }, db)
  else
    let deadSeasons :=
      (db.seasons.filter (fun s => s.content_id == cid)).map (fun s => s.season_id)
    ({ status := 200, body := .msg "Content deleted" },
     { db with
         contents := db.contents.filter (fun c => !(c.content_id == cid)),
         seasons := db.seasons.filter (fun s => !(s.content_id == cid)),
         episodes := db.episodes.filter (fun e => !(deadSeasons.contains e.season_id)),
         media_files := db.media_files.filter (fun m => !(m.content_id == cid)),
         content_genres := db.content_genres.filter (fun g => !(g.content_id == cid)),
         wishlist := db.wishlist.filter (fun w => !(w.content_id == cid)),
         viewing_history := db.viewing_history.filter (fun h => !(h.content_id == cid)) })

/-- delete_subscription_plan (src/app.py lines 934-954): DELETE by id,
404 when rowcount is 0; accounts referencing the plan get subscription_id
set to NULL (ON DELETE SET NULL). -/
def delete_subscription_plan (db : DB) (sid : Nat) : Resp × DB :=
  if !(db.subscriptions.any (fun s => s.subscription_id == sid)) then
    ({ status := 404, body := .err "Subscription not found" }, db)
  else
    ({ status := 200, body := .msg "Subscription plan deleted" },
     { db with
         subscriptions := db.subscriptions.filter (fun s => !(s.subscription_id == sid)),
         accounts :=
           db.accounts.map (fun a =>
             if a.subscription_id == some sid then { a with subscription_id := none }
             else a) })

/-- delete_account (src/app.py lines 1021-1041): DELETE by id, 404 when
rowcount is 0; cascades to the profiles of the account and through them
to their wishlist and viewing_history rows. -/
def delete_account (db : DB) (aid : Nat) : Resp × DB :=
  if !(db.accountExists aid) then
    ({ status := 404, body := .err "Account not found" }, db)
  else
    let deadProfiles :=
      (db.profiles.filter (fun p => p.account_id == aid)).map (fun p => p.profile_id)
    ({ status := 200, body := .msg "Account deleted" },
     { db with
         accounts := db.accounts.filter (fun a => !(a.account_id == aid)),
         profiles := db.profiles.filter (fun p => !(p.account_id == aid)),
         wishlist := db.wishlist.filter (fun w => !(deadProfiles.contains w.profile_id)),
         viewing_history :=
           db.viewing_history.filter (fun h => !(deadProfiles.contains h.profile_id)) })

/-- delete_media_file (src/app.py lines 1202-1222): DELETE by id, 404
when rowcount is 0. -/
def delete_media_file (db : DB) (mid : Nat) : Resp × DB :=
  if !(db.media_files.any (fun m => m.media_id == mid)) then
    ({ status := 404, body := .err "Media file not found" }, db)
  else
    ({ status := 200, body := .msg "Media file deleted" },
     { db with media_files := db.media_files.filter (fun m => !(m.media_id == mid)) })

/-- delete_genre (src/app.py lines 1289-1309): DELETE by id, 404 when
rowcount is 0; cascades to content_genres links. -/
def delete_genre (db : DB) (gid : Nat) : Resp × DB :=
  if !(db.genres.any (fun g => g.genre_id == gid)) then
    ({ status := 404, body := .err "Genre not found" }, db)
  else
    ({ status := 200, body := .msg "Genre deleted" },
     { db with
         genres := db.genres.filter (fun g => !(g.genre_id == gid)),
         content_genres := db.content_genres.filter (fun g => !(g.genre_id == gid)) })

/-- delete_season (src/app.py lines 1408-1428): DELETE by id, 404 when
rowcount is 0; cascades to the episodes of the season. -/
def delete_season (db : DB) (sid : Nat) : Resp × DB :=
  if !(db.seasons.any (fun s => s.season_id == sid)) then
    ({ status := 404, body := .err "Season not found" }, db)
  else
    ({ status := 200, body := .msg "Season deleted" },
     { db with
         seasons := db.seasons.filter (fun s => !(s.season_id == sid)),
         episodes := db.episodes.filter (fun e => !(e.season_id == sid)) })

/-- delete_episode (src/app.py lines 1489-1509): DELETE by id, 404 when
rowcount is 0. -/
def delete_episode (db : DB) (eid : Nat) : Resp × DB :=
  if !(db.episodes.any (fun e => e.episode_id == eid)) then
    ({ status := 404, body := .err "Episode not found" }, db)
  else
    ({ status := 200, body := .msg "Episode deleted" },
     { db with episodes := db.episodes.filter (fun e => !(e.episode_id == eid)) })

/-! Generic list lemmas used by the handler proofs. -/

/-- A pointwise-identity map leaves the list unchanged. -/
theorem map_id_of_all {α : Type} (l : List α) (f : α → α)
    (h : ∀ x ∈ l, f x = x) : l.map f = l := by
  induction l with
  | nil => rfl
  | cons a t ih =>
      simp only [List.map_cons]
      rw [h a (List.mem_cons_self a t), ih (fun x hx => h x (List.mem_cons_of_mem _ hx))]

/-- From a false List.any, extract the pointwise falsity. -/
theorem any_false_forall {α : Type} {l : List α} {p : α → Bool}
    (h : l.any p = false) : ∀ x ∈ l, p x = false := by
  intro x hx
  cases hpx : p x with
  | false => rfl
  | true =>
      have : l.any p = true := List.any_eq_true.mpr ⟨x, hx, hpx⟩
      rw [this] at h
      exact absurd h (by simp)

/-- find? over a map whose function preserves the predicate status
commutes with the map. -/
theorem find?_map_of_pred {α : Type} (l : List α) (q : α → Bool) (g : α → α)
    (h : ∀ x, q (g x) = q x) :
    (l.map g).find? q = (l.find? q).map g := by
  induction l with
  | nil => rfl
  | cons a t ih =>
      simp only [List.map_cons]
      cases hq : q a with
      | true =>
          rw [List.find?_cons_of_pos _ (by rw [h a]; exact hq),
              List.find?_cons_of_pos _ hq]
          rfl
      | false =>
          rw [List.find?_cons_of_neg _ (by simp [h a, hq]),
              List.find?_cons_of_neg _ (by simp [hq])]
          exact ih

/-- find? over an append whose first part has no match. -/
theorem find?_append_none {α : Type} (l1 l2 : List α) (q : α → Bool)
    (h : l1.find? q = none) : (l1 ++ l2).find? q = l2.find? q := by
  induction l1 with
  | nil => rfl
  | cons a t ih =>
      cases hq : q a with
      | true => rw [List.find?_cons_of_pos _ hq] at h; exact absurd h (by simp)
      | false =>
          rw [List.find?_cons_of_neg _ (by simp [hq])] at h
          rw [List.cons_append, List.find?_cons_of_neg _ (by simp [hq])]
          exact ih h

/-- filter length is preserved by a map whose function preserves the
predicate status. -/
theorem filter_length_map_of_pred {α : Type} (l : List α) (q : α → Bool) (g : α → α)
    (h : ∀ x, q (g x) = q x) :
    ((l.map g).filter q).length = (l.filter q).length := by
  induction l with
  | nil => rfl
  | cons a t ih =>
      simp only [List.map_cons, List.filter_cons, h a]
      cases hq : q a <;> simp [ih]

/-- Databases used by the concrete counterexamples and witnesses. -/
def emptyDB : DB := ⟨[], [], [], [], [], [], [], [], [], [], []⟩

/-- A database whose only row is profile 1 owned by account 1. -/
def oneProfileDB : DB := { emptyDB with profiles := [⟨1, 1, "Alice", "PG-13"⟩] }

/-- A database whose only row is profile 1 owned by account 2. -/
def otherOwnerDB : DB := { emptyDB with profiles := [⟨1, 2, "Bob", "R"⟩] }

/-- C3, counterexample: the account guard does not answer every token
failure with a single generic response — a missing header gets the body
"Token is missing" while an expired token gets "Token is invalid", so the
failure kinds are distinguishable (both are 401). -/
theorem account_guard_messages_differ :
    token_required none = .deny 401 "Token is missing" ∧
    token_required (some (.fail .expired)) = .deny 401 "Token is invalid" ∧
    token_required none ≠ token_required (some (.fail .expired)) := by
  refine ⟨rfl, rfl, ?_⟩
  decide

/-- C3 (amended): the account guard answers 401 on every token failure;
the malformed, expired and bad-signature failures collapse to one
response "Token is invalid" while a missing header gets the distinct body
"Token is missing"; the admin guard answers 403 exactly when the token
verifies but the is_admin claim is absent or falsy, and 401 when the
token is missing or does not verify. -/
theorem guard_responses :
    (∀ k, token_required (some (.fail k)) = .deny 401 "Token is invalid") ∧
    token_required none = .deny 401 "Token is missing" ∧
    (∀ k k', token_required (some (.fail k)) = token_required (some (.fail k'))) ∧
    (∀ c : Claims, c.is_admin = false →
      admin_token_required (some (.ok c)) = .deny 403 "Admin access required") ∧
    admin_token_required none = .deny 401 "Token is missing" ∧
    (∀ k, admin_token_required (some (.fail k)) = .deny 401 "Token is invalid") := by
  refine ⟨fun k => rfl, rfl, fun k k' => rfl, ?_, rfl, fun k => rfl⟩
  intro c h
  simp [admin_token_required, h]

/-- C3, witness: a verified token carrying is_admin = false is refused
403 by the admin guard. -/
theorem guard_responses_witness :
    admin_token_required (some (.ok ⟨none, some 1, false⟩)) =
      .deny 403 "Admin access required" :=
  guard_responses.2.2.2.1 ⟨none, some 1, false⟩ rfl

/-- C1, counterexample: a PUT history request whose body lacks
last_timestamp, issued by account 1 against profile 1 that belongs to
account 2, is answered 400 by the required-field check that runs before
the ownership check — not 404 as the claim states for every request to a
profile-scoped route. -/
theorem update_history_missing_field_not_404 :
    otherOwnerDB.profileOwned 1 1 = false ∧
    (update_history otherOwnerDB 1 1 1 none).1.status = 400 := by
  decide

/-- C1 (amended): whenever the profile_id in the path does not belong to
the authenticated account — whether the profile row exists under another
account or does not exist at all — every profile-scoped handler answers
the same fixed response, 404 with error "Profile not found" (so the two
cases are indistinguishable and never 200), and leaves the database
unchanged; the one exception the code forces is a history update whose
body lacks last_timestamp, which is answered 400 by the field check that
runs before the ownership check. -/
theorem ownership_mismatch_yields_404 (db : DB) (aid pid cid : Nat)
    (name age : Option String) (t : Int)
    (h : db.profileOwned pid aid = false) :
    get_profile db aid pid = ({ status := 404, body := .err "Profile not found" }, db) ∧
    update_profile db aid pid name age =
      ({ status := 404, body := .err "Profile not found" }, db) ∧
    delete_profile db aid pid = ({ status := 404, body := .err "Profile not found" }, db) ∧
    get_wishlist db aid pid = ({ status := 404, body := .err "Profile not found" }, db) ∧
    add_to_wishlist db aid pid cid =
      ({ status := 404, body := .err "Profile not found" }, db) ∧
    remove_from_wishlist db aid pid cid =
      ({ status := 404, body := .err "Profile not found" }, db) ∧
    get_history db aid pid = ({ status := 404, body := .err "Profile not found" }, db) ∧
    get_history_item db aid pid cid =
      ({ status := 404, body := .err "Profile not found" }, db) ∧
    update_history db aid pid cid (some t) =
      ({ status := 404, body := .err "Profile not found" }, db) ∧
    delete_history db aid pid cid =
      ({ status := 404, body := .err "Profile not found" }, db) := by
  have hnone : db.findProfile pid aid = none := by
    cases hf : db.findProfile pid aid with
    | none => rfl
    | some p =>
        simp [DB.profileOwned, hf] at h
  refine ⟨?_, ?_, ?_, ?_, ?_, ?_, ?_, ?_, ?_, ?_⟩ <;>
    simp [get_profile, update_profile, delete_profile, get_wishlist, add_to_wishlist,
      remove_from_wishlist, get_history, get_history_item, update_history,
      delete_history, h, hnone]

/-- C1, witness: account 1 requesting profile 1, which belongs to account
2, gets the fixed 404 response. -/
theorem ownership_mismatch_yields_404_witness :
    otherOwnerDB.profileOwned 1 1 = false ∧
    get_profile otherOwnerDB 1 1 =
      ({ status := 404, body := .err "Profile not found" }, otherOwnerDB) :=
  ⟨by decide, (ownership_mismatch_yields_404 otherOwnerDB 1 1 1 none none 0 (by decide)).1⟩

/-- When every element fails p, the conjunction of p with anything also
fails everywhere. -/
theorem any_and_false_left {α : Type} {l : List α} {p q : α → Bool}
    (h : l.any p = false) : l.any (fun x => p x && q x) = false := by
  have hp := any_false_forall h
  cases hall : l.any (fun x => p x && q x) with
  | false => rfl
  | true =>
      obtain ⟨x, hx, hpx⟩ := List.any_eq_true.mp hall
      rw [hp x hx] at hpx
      exact absurd hpx (by simp)

/-- C2, counterexample: update_genre with a genre_id that matches no row
still answers 200 — the handler issues an unconditional UPDATE and never
inspects the row count — refuting the claim that the admin update
handlers answer 404 for an id that does not exist. -/
theorem update_genre_missing_id_200 :
    emptyDB.genres.any (fun g => g.genre_id == 1) = false ∧
    (update_genre emptyDB 1 (some "Drama")).1.status = 200 := by
  decide

/-- C2 (amended): handlers that read a row back or test the DELETE row
count answer 404 when the id does not exist, but the admin update
handlers for genres, seasons, episodes, content, subscriptions and
accounts issue an unconditional UPDATE: on a nonexistent id they answer
200 (once the body passes validation) and leave the database
unchanged. -/
theorem singular_lookup_responses (db : DB) (i : Nat)
    (hg : db.genres.any (fun g => g.genre_id == i) = false)
    (hs : db.seasons.any (fun s => s.season_id == i) = false)
    (he : db.episodes.any (fun e => e.episode_id == i) = false)
    (hp : db.subscriptions.any (fun s => s.subscription_id == i) = false)
    (ha : db.accountExists i = false)
    (hc : db.contentExists i = false)
    (hm : db.media_files.any (fun m => m.media_id == i) = false) :
    (∀ nm, truthyStr nm = true →
      update_genre db i nm = ({ status := 200, body := .msg "Genre updated" }, db)) ∧
    (∀ num : Int, update_season db i (some num) =
      ({ status := 200, body := .msg "Season updated" }, db)) ∧
    (∀ t num, update_episode db i t num =
      ({ status := 200, body := .msg "Episode updated" }, db)) ∧
    (∀ nm mp pr, update_subscription_plan db i nm mp pr =
      ({ status := 200, body := .msg "Subscription plan updated" }, db)) ∧
    (∀ em sb, admin_update_account db i em sb =
      ({ status := 200, body := .msg "Account updated" }, db)) ∧
    (∀ t d y, admin_update_content db i t d y =
      ({ status := 200, body := .msg "Content updated" }, db)) ∧
    get_content_by_id db i = ({ status := 404, body := .err "Content not found" }, db) ∧
    get_episode db i = ({ status := 404, body := .err "Episode not found" }, db) ∧
    get_subscription_by_id db i =
      ({ status := 404, body := .err "Subscription not found" }, db) ∧
    get_account_by_id db i = ({ status := 404, body := .err "Account not found" }, db) ∧
    admin_get_content_by_id db i =
      ({ status := 404, body := .err "Content not found" }, db) ∧
    admin_delete_content db i = ({ status := 404, body := .err "Content not found" }, db) ∧
    delete_subscription_plan db i =
      ({ status := 404, body := .err "Subscription not found" }, db) ∧
    delete_account db i = ({ status := 404, body := .err "Account not found" }, db) ∧
    delete_media_file db i = ({ status := 404, body := .err "Media file not found" }, db) ∧
    delete_genre db i = ({ status := 404, body := .err "Genre not found" }, db) ∧
    delete_season db i = ({ status := 404, body := .err "Season not found" }, db) ∧
    delete_episode db i = ({ status := 404, body := .err "Episode not found" }, db) := by
  have ha' : db.accounts.any (fun a => a.account_id == i) = false := ha
  have hc' : db.contents.any (fun c => c.content_id == i) = false := hc
  have hgp := any_false_forall hg
  have hsp := any_false_forall hs
  have hep := any_false_forall he
  have hpp := any_false_forall hp
  have hap := any_false_forall ha'
  have hcp := any_false_forall hc'
  have hmp := any_false_forall hm
  have mapg : ∀ f : Genre → Genre,
      db.genres.map (fun g => if g.genre_id == i then f g else g) = db.genres :=
    fun f => map_id_of_all _ _ (fun g hgm => by simp [hgp g hgm])
  have maps2 : ∀ f : Season → Season,
      db.seasons.map (fun s => if s.season_id == i then f s else s) = db.seasons :=
    fun f => map_id_of_all _ _ (fun s hsm => by simp [hsp s hsm])
  have mape : ∀ f : Episode → Episode,
      db.episodes.map (fun e => if e.episode_id == i then f e else e) = db.episodes :=
    fun f => map_id_of_all _ _ (fun e hem => by simp [hep e hem])
  have mapp : ∀ f : Subscription → Subscription,
      db.subscriptions.map (fun s => if s.subscription_id == i then f s else s) =
        db.subscriptions :=
    fun f => map_id_of_all _ _ (fun s hsm => by simp [hpp s hsm])
  have mapa : ∀ f : Account → Account,
      db.accounts.map (fun a => if a.account_id == i then f a else a) = db.accounts :=
    fun f => map_id_of_all _ _ (fun a ham => by simp [hap a ham])
  have mapc : ∀ f : Content → Content,
      db.contents.map (fun c => if c.content_id == i then f c else c) = db.contents :=
    fun f => map_id_of_all _ _ (fun c hcm => by simp [hcp c hcm])
  have hgf : db.genres.find? (fun g => g.genre_id == i) = none :=
    List.find?_eq_none.mpr (fun x hx => by simp [hgp x hx])
  have hef : db.episodes.find? (fun e => e.episode_id == i) = none :=
    List.find?_eq_none.mpr (fun x hx => by simp [hep x hx])
  have hpf : db.subscriptions.find? (fun s => s.subscription_id == i) = none :=
    List.find?_eq_none.mpr (fun x hx => by simp [hpp x hx])
  have haf : db.accounts.find? (fun a => a.account_id == i) = none :=
    List.find?_eq_none.mpr (fun x hx => by simp [hap x hx])
  have hcf : db.contents.find? (fun c => c.content_id == i) = none :=
    List.find?_eq_none.mpr (fun x hx => by simp [hcp x hx])
  refine ⟨?_, ?_, ?_, ?_, ?_, ?_, ?_, ?_, ?_, ?_, ?_, ?_, ?_, ?_, ?_, ?_, ?_, ?_⟩
  · intro nm hnm
    simp only [update_genre, hnm, hg, mapg (fun g => { g with name := nm.getD "" }),
      Bool.not_true, Bool.false_and, Bool.false_eq_true, if_false, ite_false]
    all_goals simp
  · intro num
    simp only [update_season, any_and_false_left hs, Bool.false_eq_true, if_false,
      ite_false, maps2 (fun s => { s with season_number := num })]
    all_goals simp
  · intro t num
    cases num with
    | none =>
        cases ht : truthyStr t with
        | false =>
            simp only [update_episode, ht, Bool.false_eq_true, if_false, ite_false]
            all_goals simp
        | true =>
            simp only [update_episode, ht, Bool.false_eq_true, if_false, ite_false,
              eq_self_iff_true, if_true, ite_true,
              mape (fun e => { e with title := t.getD "" })]
            all_goals simp
    | some v =>
        cases ht : truthyStr t with
        | false =>
            simp only [update_episode, ht, any_and_false_left he, Bool.false_eq_true,
              if_false, ite_false, mape (fun e => { e with episode_number := v })]
            all_goals simp
        | true =>
            simp only [update_episode, ht, any_and_false_left he, Bool.false_eq_true,
              if_false, ite_false, eq_self_iff_true, if_true, ite_true,
              mape (fun e => { e with title := t.getD "" }),
              mape (fun e => { e with episode_number := v })]
            all_goals simp
  · intro nm mp pr
    cases hn : truthyStr nm <;> cases mp <;> cases pr <;>
      (simp only [update_subscription_plan, hn, hp, Bool.true_and, Bool.false_and,
        Bool.and_false, Bool.and_true, Bool.false_eq_true, if_false, ite_false,
        eq_self_iff_true, if_true, ite_true,
        mapp (fun s => { s with name := nm.getD "" })]
       all_goals
         try simp only [fun (v : Int) => mapp (fun s => { s with max_profiles := v }),
           fun (v : Int) => mapp (fun s => { s with monthly_price := v })]
       all_goals simp)
  · intro em sb
    cases hem : truthyStr em <;> cases sb <;>
      (simp only [admin_update_account, hem, ha, ha', Bool.true_and, Bool.false_and,
        Bool.and_false, Bool.and_true, Bool.false_or, Bool.or_false, Bool.or_self,
        Bool.false_eq_true, if_false, ite_false, eq_self_iff_true, if_true, ite_true,
        mapa (fun a => { a with email := em.getD "" })]
       all_goals
         try simp only [fun (v : Nat) => mapa (fun a => { a with subscription_id := some v })]
       all_goals simp)
  · intro t d y
    cases ht : truthyStr t <;> cases hd : truthyStr d <;> cases y <;>
      (simp only [admin_update_content, ht, hd, Bool.false_eq_true, if_false,
        ite_false, eq_self_iff_true, if_true, ite_true,
        mapc (fun c => { c with title := t.getD "" })]
       all_goals
         try simp only [mapc (fun c => { c with description := d.getD "" })]
       all_goals
         try simp only [fun (v : Int) => mapc (fun c => { c with release_year := v })]
       all_goals simp)
  · simp [get_content_by_id, hcf]
  · simp [get_episode, hef]
  · simp [get_subscription_by_id, hpf]
  · simp [get_account_by_id, haf]
  · simp [admin_get_content_by_id, hcf]
  · simp [admin_delete_content, hc]
  · simp [delete_subscription_plan, hp]
  · simp [delete_account, ha]
  · simp [delete_media_file, hm]
  · simp [delete_genre, hg]
  · simp [delete_season, hs]
  · simp [delete_episode, he]

/-- C2, witness: on the empty database, id 1 exists in no table; the
content lookup answers 404 and the genre update answers 200. -/
theorem singular_lookup_responses_witness :
    emptyDB.contentExists 1 = false ∧
    get_content_by_id emptyDB 1 =
      ({ status := 404, body := .err "Content not found" }, emptyDB) ∧
    update_genre emptyDB 1 (some "Drama") =
      ({ status := 200, body := .msg "Genre updated" }, emptyDB) := by
  have h := singular_lookup_responses emptyDB 1 (by decide) (by decide) (by decide)
    (by decide) (by decide) (by decide) (by decide)
  exact ⟨by decide, h.2.2.2.2.2.2.1, h.1 (some "Drama") (by decide)⟩

/-- C7: registering with an email an existing account already holds
always answers 400 and inserts nothing, whatever the password and
subscription_id fields hold — in particular the duplicate-email check is
decided before the subscription-existence check that would answer 404. -/
theorem register_duplicate_email_400 (db : DB) (req : RegisterReq)
    (newId : Nat) (hashed : String) (a : Account)
    (ha : a ∈ db.accounts) (hemail : req.email = some a.email) :
    (register db req newId hashed).1.status = 400 ∧
    (register db req newId hashed).2 = db := by
  have hdup : db.accounts.any (fun x => x.email == req.email.getD "") = true :=
    List.any_eq_true.mpr ⟨a, ha, by rw [hemail]; simp⟩
  cases hb1 : (truthyStr req.email && truthyStr req.password) with
  | false => simp [register, hb1]
  | true =>
      cases hb2 : truthyNat req.subscription_id with
      | false => simp [register, hb1, hb2]
      | true => simp [register, hb1, hb2, hdup]

/-- Database holding one account whose email is a@b.com. -/
def dupDB : DB := { emptyDB with accounts := [⟨1, "a@b.com", "h", some 1⟩] }

/-- C7, witness: re-registering a@b.com with a nonexistent subscription
id still answers 400 and leaves the accounts table unchanged. -/
theorem register_duplicate_email_400_witness :
    (⟨1, "a@b.com", "h", some 1⟩ : Account) ∈ dupDB.accounts ∧
    (register dupDB ⟨some "a@b.com", some "pw", some 2⟩ 5 "hh").1.status = 400 ∧
    (register dupDB ⟨some "a@b.com", some "pw", some 2⟩ 5 "hh").2 = dupDB := by
  have h := register_duplicate_email_400 dupDB ⟨some "a@b.com", some "pw", some 2⟩
    5 "hh" ⟨1, "a@b.com", "h", some 1⟩ (by decide) rfl
  exact ⟨by decide, h.1, h.2⟩

/-- C10: when the authenticated account has no subscription, or its
subscription allows 0 profiles, the limit check never rejects: any valid
create-profile request answers 201 and appends the profile, whatever the
current profile count. -/
theorem no_limit_when_null_or_zero (db : DB) (aid newPid : Nat)
    (name age : Option String) (a : Account)
    (hfind : db.accounts.find? (fun x => x.account_id == aid) = some a)
    (hsub : a.subscription_id = none ∨
      ∃ sid sub, a.subscription_id = some sid ∧
        db.subscriptions.find? (fun s => s.subscription_id == sid) = some sub ∧
        sub.max_profiles = 0)
    (hname : truthyStr name = true) (hage : truthyStr age = true) :
    (create_profile db aid name age newPid).1.status = 201 ∧
    (create_profile db aid name age newPid).2.profiles =
      db.profiles ++ [{ profile_id := newPid, account_id := aid,
                        name := name.getD "", age_rating_pref := age.getD "" }] := by
  have hpa := List.find?_some hfind
  have hexists : db.accountExists aid = true :=
    List.any_eq_true.mpr ⟨a, List.mem_of_find?_eq_some hfind, hpa⟩
  have hlim : profileLimited db aid = false := by
    rcases hsub with h0 | ⟨sid, sub, hs1, hs2, hs3⟩
    · simp [profileLimited, profileLimitRow, hfind, h0]
    · simp [profileLimited, profileLimitRow, hfind, hs1, hs2, hs3]
  simp [create_profile, hname, hage, hlim, hexists]

/-- Database with account 1 on the zero-profile plan 1, already holding
three profiles. -/
def zeroPlanDB : DB :=
  { emptyDB with
      subscriptions := [⟨1, "Frozen", 0, 0⟩],
      accounts := [⟨1, "z@b.com", "h", some 1⟩],
      profiles := [⟨1, 1, "P1", "PG"⟩, ⟨2, 1, "P2", "PG"⟩, ⟨3, 1, "P3", "PG"⟩] }

/-- C10, witness: with max_profiles 0 and three existing profiles, a
fourth create still answers 201 and appends the row. -/
theorem no_limit_when_null_or_zero_witness :
    zeroPlanDB.accounts.find? (fun x => x.account_id == 1) =
      some ⟨1, "z@b.com", "h", some 1⟩ ∧
    (create_profile zeroPlanDB 1 (some "P4") (some "PG") 4).1.status = 201 ∧
    (create_profile zeroPlanDB 1 (some "P4") (some "PG") 4).2.profiles =
      zeroPlanDB.profiles ++ [⟨4, 1, "P4", "PG"⟩] := by
  have h := no_limit_when_null_or_zero zeroPlanDB 1 4 (some "P4") (some "PG")
    ⟨1, "z@b.com", "h", some 1⟩ (by decide)
    (Or.inr ⟨1, ⟨1, "Frozen", 0, 0⟩, rfl, by decide, rfl⟩) (by decide) (by decide)
  exact ⟨by decide, h.1, h.2⟩

/-- Sequence of POST /profiles requests with the same body; the list
holds the fresh serial profile_id each successful insert would return. -/
def createProfiles (aid : Nat) (name age : Option String) :
    DB → List Nat → List Resp × DB
  | db, [] => ([], db)
  | db, pid :: pids =>
      let r := create_profile db aid name age pid
      let rest := createProfiles aid name age r.2 pids
      (r.1 :: rest.1, rest.2)

/-- Unfolding equation for a run of requests. -/
theorem createProfiles_cons (aid : Nat) (name age : Option String) (db : DB)
    (pid : Nat) (pids : List Nat) :
    createProfiles aid name age db (pid :: pids) =
      ((create_profile db aid name age pid).1 ::
        (createProfiles aid name age (create_profile db aid name age pid).2 pids).1,
       (createProfiles aid name age (create_profile db aid name age pid).2 pids).2) := rfl

/-- A create_profile below the subscription limit succeeds and appends
exactly the new profile row. -/
theorem create_profile_under_limit (db : DB) (aid newPid : Nat)
    (name age : Option String) (a : Account) (sid : Nat) (sub : Subscription)
    (hfind : db.accounts.find? (fun x => x.account_id == aid) = some a)
    (hsub : a.subscription_id = some sid)
    (hsfind : db.subscriptions.find? (fun s => s.subscription_id == sid) = some sub)
    (hcnt : ((db.profiles.filter (fun p => p.account_id == aid)).length : Int) <
      sub.max_profiles)
    (hname : truthyStr name = true) (hage : truthyStr age = true) :
    create_profile db aid name age newPid =
      ({ status := 201, body := .createdProfile newPid (name.getD "") (age.getD "") },
       { db with profiles := db.profiles ++
           [{ profile_id := newPid, account_id := aid, name := name.getD "",
              age_rating_pref := age.getD "" }] }) := by
  have hpa := List.find?_some hfind
  have hexists : db.accountExists aid = true :=
    List.any_eq_true.mpr ⟨a, List.mem_of_find?_eq_some hfind, hpa⟩
  have hnotle : ¬(sub.max_profiles ≤
      ((db.profiles.filter (fun p => p.account_id == aid)).length : Int)) :=
    not_le.mpr hcnt
  have hlim : profileLimited db aid = false := by
    simp [profileLimited, profileLimitRow, hfind, hsub, hsfind, hnotle]
  simp [create_profile, hname, hage, hlim, hexists]

/-- A create_profile at or over a nonzero limit answers 400 and changes
nothing. -/
theorem create_profile_at_limit (db : DB) (aid newPid : Nat)
    (name age : Option String) (a : Account) (sid : Nat) (sub : Subscription)
    (hfind : db.accounts.find? (fun x => x.account_id == aid) = some a)
    (hsub : a.subscription_id = some sid)
    (hsfind : db.subscriptions.find? (fun s => s.subscription_id == sid) = some sub)
    (hm0 : sub.max_profiles ≠ 0)
    (hcnt : sub.max_profiles ≤
      ((db.profiles.filter (fun p => p.account_id == aid)).length : Int))
    (hname : truthyStr name = true) (hage : truthyStr age = true) :
    create_profile db aid name age newPid =
      ({ status := 400, body := .err "Profile limit reached" }, db) := by
  have hlim : profileLimited db aid = true := by
    simp [profileLimited, profileLimitRow, hfind, hsub, hsfind, hm0, hcnt]
  simp [create_profile, hname, hage, hlim]

/-- Along a run of create_profile calls that stays within the limit,
every response is 201, accounts and subscriptions stay fixed, and the
profile count of the account grows by the number of requests. -/
theorem createProfiles_all_201 (aid : Nat) (name age : Option String)
    (a : Account) (sid : Nat) (sub : Subscription)
    (hsub : a.subscription_id = some sid)
    (hname : truthyStr name = true) (hage : truthyStr age = true) :
    ∀ (pids : List Nat) (db : DB),
      db.accounts.find? (fun x => x.account_id == aid) = some a →
      db.subscriptions.find? (fun s => s.subscription_id == sid) = some sub →
      ((db.profiles.filter (fun p => p.account_id == aid)).length : Int) + pids.length ≤
        sub.max_profiles →
      (∀ r ∈ (createProfiles aid name age db pids).1, r.status = 201) ∧
      (createProfiles aid name age db pids).2.accounts = db.accounts ∧
      (createProfiles aid name age db pids).2.subscriptions = db.subscriptions ∧
      ((createProfiles aid name age db pids).2.profiles.filter
          (fun p => p.account_id == aid)).length =
        (db.profiles.filter (fun p => p.account_id == aid)).length + pids.length := by
  intro pids
  induction pids with
  | nil =>
      intro db h1 h2 h3
      refine ⟨?_, rfl, rfl, by simp [createProfiles]⟩
      intro r hr
      simp [createProfiles] at hr
  | cons pid rest ih =>
      intro db h1 h2 h3
      have hcnt : ((db.profiles.filter (fun p => p.account_id == aid)).length : Int) <
          sub.max_profiles := by
        simp only [List.length_cons] at h3
        push_cast at h3
        omega
      have hstep := create_profile_under_limit db aid pid name age a sid sub h1 hsub h2
        hcnt hname hage
      rw [createProfiles_cons, hstep]
      dsimp only
      have hflt : ((db.profiles ++
            [({ profile_id := pid, account_id := aid, name := name.getD "",
                age_rating_pref := age.getD "" } : Profile)]).filter
              (fun p => p.account_id == aid)).length =
          (db.profiles.filter (fun p => p.account_id == aid)).length + 1 := by
        simp [List.filter_append]
      have h3' : ((({ db with profiles :=
              db.profiles ++
                [({ profile_id := pid, account_id := aid, name := name.getD "",
                    age_rating_pref := age.getD "" } : Profile)] } : DB).profiles.filter
            (fun p => p.account_id == aid)).length : Int) + rest.length ≤
          sub.max_profiles := by
        dsimp only
        rw [hflt]
        simp only [List.length_cons] at h3
        push_cast at h3 ⊢
        omega
      obtain ⟨ih1, ih2, ih3, ih4⟩ := ih
        { db with profiles :=
            db.profiles ++
              [({ profile_id := pid, account_id := aid, name := name.getD "",
                  age_rating_pref := age.getD "" } : Profile)] } h1 h2 h3'
      refine ⟨?_, ih2, ih3, ?_⟩
      · intro r hr
        rcases List.mem_cons.mp hr with h | h
        · rw [h]
        · exact ih1 r h
      · dsimp only at ih4
        rw [ih4, hflt]
        simp only [List.length_cons]
        omega

/-- C4: for an account on a subscription with max_profiles = n (n at
least 1) that starts with zero profiles, n sequential valid create
requests each answer 201, and at that point every further valid request
answers 400 "Profile limit reached" and leaves the database unchanged. -/
theorem profile_limit_enforced (db : DB) (aid : Nat) (name age : Option String)
    (a : Account) (sid : Nat) (sub : Subscription) (n : Nat) (pids : List Nat)
    (hfind : db.accounts.find? (fun x => x.account_id == aid) = some a)
    (hsub : a.subscription_id = some sid)
    (hsfind : db.subscriptions.find? (fun s => s.subscription_id == sid) = some sub)
    (hmax : sub.max_profiles = (n : Int)) (hn : 1 ≤ n)
    (hzero : (db.profiles.filter (fun p => p.account_id == aid)).length = 0)
    (hname : truthyStr name = true) (hage : truthyStr age = true)
    (hlen : pids.length = n) :
    (∀ r ∈ (createProfiles aid name age db pids).1, r.status = 201) ∧
    (∀ pid2 name2 age2, truthyStr name2 = true → truthyStr age2 = true →
      create_profile (createProfiles aid name age db pids).2 aid name2 age2 pid2 =
        ({ status := 400, body := .err "Profile limit reached" },
         (createProfiles aid name age db pids).2)) := by
  have hbound : ((db.profiles.filter (fun p => p.account_id == aid)).length : Int) +
      pids.length ≤ sub.max_profiles := by
    rw [hzero, hlen, hmax]
    simp
  obtain ⟨h201, hacc, hsubs, hflt⟩ :=
    createProfiles_all_201 aid name age a sid sub hsub hname hage pids db hfind hsfind hbound
  refine ⟨h201, ?_⟩
  intro pid2 name2 age2 hn2 ha2
  have hfind' : (createProfiles aid name age db pids).2.accounts.find?
      (fun x => x.account_id == aid) = some a := by rw [hacc]; exact hfind
  have hsfind' : (createProfiles aid name age db pids).2.subscriptions.find?
      (fun s => s.subscription_id == sid) = some sub := by rw [hsubs]; exact hsfind
  have hm0 : sub.max_profiles ≠ 0 := by
    rw [hmax]
    have : 0 < n := by omega
    exact_mod_cast Nat.pos_iff_ne_zero.mp this
  have hcnt : sub.max_profiles ≤
      (((createProfiles aid name age db pids).2.profiles.filter
        (fun p => p.account_id == aid)).length : Int) := by
    rw [hflt, hzero, hlen, hmax]
    simp
  exact create_profile_at_limit _ aid pid2 name2 age2 a sid sub hfind' hsub hsfind'
    hm0 hcnt hn2 ha2

/-- Database with account 1 on a two-profile plan and no profiles yet. -/
def basicPlanDB : DB :=
  { emptyDB with
      subscriptions := [⟨1, "Basic", 999, 2⟩],
      accounts := [⟨1, "b@b.com", "h", some 1⟩] }

/-- C4, witness: with max_profiles = 2, two sequential creates answer
201 and a third answers 400 without inserting. -/
theorem profile_limit_enforced_witness :
    (basicPlanDB.profiles.filter (fun p => p.account_id == 1)).length = 0 ∧
    (∀ r ∈ (createProfiles 1 (some "A") (some "PG") basicPlanDB [10, 11]).1,
      r.status = 201) ∧
    create_profile (createProfiles 1 (some "A") (some "PG") basicPlanDB [10, 11]).2
        1 (some "B") (some "PG") 12 =
      ({ status := 400, body := .err "Profile limit reached" },
       (createProfiles 1 (some "A") (some "PG") basicPlanDB [10, 11]).2) := by
  have h := profile_limit_enforced basicPlanDB 1 (some "A") (some "PG")
    ⟨1, "b@b.com", "h", some 1⟩ 1 ⟨1, "Basic", 999, 2⟩ 2 [10, 11]
    (by decide) rfl (by decide) (by decide) (by decide) (by decide)
    (by decide) (by decide) rfl
  exact ⟨by decide, h.1, h.2 12 (some "B") (some "PG") (by decide) (by decide)⟩

/-- A list none of whose elements satisfies p filters to nil. -/
theorem filter_nil_of_any_false {α : Type} {l : List α} {p : α → Bool}
    (h : l.any p = false) : l.filter p = [] := by
  induction l with
  | nil => rfl
  | cons a tl ih =>
      simp only [List.any_cons, Bool.or_eq_false_iff] at h
      simp [List.filter_cons, h.1, ih h.2]

/-- C6: wishlist add is idempotent: with an owned profile and existing
content, both calls answer 201, the second call changes nothing, and
exactly one (profile, content) row remains (the primary key guarantees
at most one such row beforehand, stated as the hypothesis hkey). -/
theorem wishlist_add_idempotent (db : DB) (aid pid cid : Nat)
    (hown : db.profileOwned pid aid = true)
    (hc : db.contentExists cid = true)
    (hkey : (db.wishlist.filter
      (fun w => w.profile_id == pid && w.content_id == cid)).length ≤ 1) :
    (add_to_wishlist db aid pid cid).1.status = 201 ∧
    (add_to_wishlist (add_to_wishlist db aid pid cid).2 aid pid cid).1.status = 201 ∧
    (add_to_wishlist (add_to_wishlist db aid pid cid).2 aid pid cid).2 =
      (add_to_wishlist db aid pid cid).2 ∧
    ((add_to_wishlist db aid pid cid).2.wishlist.filter
      (fun w => w.profile_id == pid && w.content_id == cid)).length = 1 := by
  cases hmem : db.wishlist.any (fun w => w.profile_id == pid && w.content_id == cid) with
  | true =>
      have h1 : add_to_wishlist db aid pid cid =
          ({ status := 201, body := .msg "Added to wishlist" }, db) := by
        simp [add_to_wishlist, hown, hmem]
      obtain ⟨w, hw, hpw⟩ := List.any_eq_true.mp hmem
      have hpos : 0 < (db.wishlist.filter
          (fun w => w.profile_id == pid && w.content_id == cid)).length :=
        List.length_pos.mpr (List.ne_nil_of_mem (List.mem_filter.mpr ⟨hw, hpw⟩))
      have hlen : (db.wishlist.filter
          (fun w => w.profile_id == pid && w.content_id == cid)).length = 1 := by
        omega
      rw [h1]
      exact ⟨rfl, by dsimp only; rw [h1], by dsimp only; rw [h1], by dsimp only; exact hlen⟩
  | false =>
      have hzero : db.wishlist.filter
          (fun w => w.profile_id == pid && w.content_id == cid) = [] :=
        filter_nil_of_any_false hmem
      have h1 : add_to_wishlist db aid pid cid =
          ({ status := 201, body := .msg "Added to wishlist" },
           { db with wishlist :=
               db.wishlist ++ [{ profile_id := pid, content_id := cid }] }) := by
        simp [add_to_wishlist, hown, hmem, hc]
      have hown' : ({ db with wishlist :=
          db.wishlist ++ [({ profile_id := pid, content_id := cid } : WishlistEntry)] } :
            DB).profileOwned pid aid = true := hown
      have hmem' : ({ db with wishlist :=
          db.wishlist ++ [({ profile_id := pid, content_id := cid } : WishlistEntry)] } :
            DB).wishlist.any
            (fun w => w.profile_id == pid && w.content_id == cid) = true := by
        simp [List.any_append]
      have h2 : add_to_wishlist
          { db with wishlist :=
              db.wishlist ++ [({ profile_id := pid, content_id := cid } : WishlistEntry)] }
          aid pid cid =
          ({ status := 201, body := .msg "Added to wishlist" },
           { db with wishlist :=
               db.wishlist ++ [({ profile_id := pid, content_id := cid } : WishlistEntry)] }) := by
        simp [add_to_wishlist, hown', hmem']
      rw [h1]
      refine ⟨rfl, ?_, ?_, ?_⟩
      · rw [h2]
      · rw [h2]
      · simp [List.filter_append, hzero]

/-- Database with profile 1 under account 1 and content 1. -/
def wlDB : DB :=
  { oneProfileDB with contents := [⟨1, "M", "Movie", "d", 2020⟩] }

/-- C6, witness: adding content 1 to the wishlist of owned profile 1
twice answers 201 and the second call changes nothing. -/
theorem wishlist_add_idempotent_witness :
    wlDB.profileOwned 1 1 = true ∧
    wlDB.contentExists 1 = true ∧
    (add_to_wishlist wlDB 1 1 1).1.status = 201 ∧
    (add_to_wishlist (add_to_wishlist wlDB 1 1 1).2 1 1 1).2 =
      (add_to_wishlist wlDB 1 1 1).2 := by
  have h := wishlist_add_idempotent wlDB 1 1 1 (by decide) (by decide) (by decide)
  exact ⟨by decide, by decide, h.1, h.2.2.1⟩

/-- C5, counterexample: with profile 1 owned by account 1 but no content
row 7, the history PUT does not succeed for that content_id: the insert
violates the content foreign key and the handler rolls back and answers
500, refuting "any content_id". -/
theorem update_history_dangling_content_500 :
    oneProfileDB.profileOwned 1 1 = true ∧
    oneProfileDB.contentExists 7 = false ∧
    (update_history oneProfileDB 1 1 7 (some 5)).1.status = 500 ∧
    (update_history oneProfileDB 1 1 7 (some 5)).2 = oneProfileDB := by
  decide


/-- C5 (amended): for an owned profile and an existing content, the
history PUT is an unconditional last-write-wins upsert: it answers 200, a
following GET of the same (profile, content) item answers exactly the
written timestamp — even one smaller than the stored value — and the
at-most-one-row-per-pair invariant is preserved for every pair. -/
theorem history_upsert_last_write_wins (db : DB) (aid pid cid : Nat) (t : Int)
    (hown : db.profileOwned pid aid = true)
    (hc : db.contentExists cid = true) :
    (update_history db aid pid cid (some t)).1 =
      { status := 200, body := .msg "History updated" } ∧
    get_history_item (update_history db aid pid cid (some t)).2 aid pid cid =
      ({ status := 200, body := .historyJson cid t },
       (update_history db aid pid cid (some t)).2) ∧
    (∀ pid2 cid2,
      (db.viewing_history.filter
        (fun h => h.profile_id == pid2 && h.content_id == cid2)).length ≤ 1 →
      ((update_history db aid pid cid (some t)).2.viewing_history.filter
        (fun h => h.profile_id == pid2 && h.content_id == cid2)).length ≤ 1) := by
  cases hmem : db.viewing_history.any
      (fun h => h.profile_id == pid && h.content_id == cid) with
  | true =>
      have h1 : update_history db aid pid cid (some t) =
          ({ status := 200, body := .msg "History updated" },
           { db with viewing_history :=
               db.viewing_history.map (fun h =>
                 if h.profile_id == pid && h.content_id == cid then
                   { h with last_timestamp := t }
                 else h) }) := by
        simp [update_history, hown, hmem]
      rw [h1]
      refine ⟨rfl, ?_, ?_⟩
      · have hown2 : ({ db with viewing_history :=
            db.viewing_history.map (fun h =>
              if h.profile_id == pid && h.content_id == cid then
                { h with last_timestamp := t }
              else h) } : DB).profileOwned pid aid = true := hown
        have hpres : ∀ x : HistoryEntry,
            (((if x.profile_id == pid && x.content_id == cid then
                { x with last_timestamp := t } else x).profile_id == pid) &&
             ((if x.profile_id == pid && x.content_id == cid then
                { x with last_timestamp := t } else x).content_id == cid)) =
            (x.profile_id == pid && x.content_id == cid) := by
          intro x
          cases hx : (x.profile_id == pid && x.content_id == cid) <;> simp [hx]
        have hmap := find?_map_of_pred db.viewing_history
          (fun h => h.profile_id == pid && h.content_id == cid)
          (fun h => if h.profile_id == pid && h.content_id == cid then
            { h with last_timestamp := t } else h) hpres
        cases hf : db.viewing_history.find?
            (fun h => h.profile_id == pid && h.content_id == cid) with
        | none =>
            obtain ⟨m, hmmem, hqm⟩ := List.any_eq_true.mp hmem
            have := List.find?_eq_none.mp hf m hmmem
            rw [hqm] at this
            exact absurd rfl this
        | some m =>
            have hqm := List.find?_some hf
            simp only [Bool.and_eq_true, beq_iff_eq] at hqm
            have hcidm : m.content_id = cid := hqm.2
            have hstep2 : (db.viewing_history.map (fun h =>
                if h.profile_id == pid && h.content_id == cid then
                  { h with last_timestamp := t }
                else h)).find?
                (fun h => h.profile_id == pid && h.content_id == cid) =
                some { m with last_timestamp := t } := by
              rw [hmap, hf]
              simp [hqm.1, hqm.2]
            simp only [get_history_item, hown2, Bool.not_true, Bool.false_eq_true,
              if_false, ite_false, hstep2, hcidm]
      · intro pid2 cid2 hle
        have hpres2 : ∀ x : HistoryEntry,
            (((if x.profile_id == pid && x.content_id == cid then
                { x with last_timestamp := t } else x).profile_id == pid2) &&
             ((if x.profile_id == pid && x.content_id == cid then
                { x with last_timestamp := t } else x).content_id == cid2)) =
            (x.profile_id == pid2 && x.content_id == cid2) := by
          intro x
          cases hx : (x.profile_id == pid && x.content_id == cid) <;> simp [hx]
        have hflt := filter_length_map_of_pred db.viewing_history
          (fun h => h.profile_id == pid2 && h.content_id == cid2)
          (fun h => if h.profile_id == pid && h.content_id == cid then
            { h with last_timestamp := t } else h) hpres2
        dsimp only
        rw [hflt]
        exact hle
  | false =>
      have h1 : update_history db aid pid cid (some t) =
          ({ status := 200, body := .msg "History updated" },
           { db with viewing_history := db.viewing_history ++
               [{ profile_id := pid, content_id := cid, last_timestamp := t }] }) := by
        simp [update_history, hown, hmem, hc]
      have hfnone : db.viewing_history.find?
          (fun h => h.profile_id == pid && h.content_id == cid) = none :=
        List.find?_eq_none.mpr (fun x hx => by simp [any_false_forall hmem x hx])
      rw [h1]
      refine ⟨rfl, ?_, ?_⟩
      · have hown2 : ({ db with viewing_history := db.viewing_history ++
            [({ profile_id := pid, content_id := cid, last_timestamp := t } :
              HistoryEntry)] } : DB).profileOwned pid aid = true := hown
        have hfind2 : (db.viewing_history ++
            [({ profile_id := pid, content_id := cid, last_timestamp := t } :
              HistoryEntry)]).find?
            (fun h => h.profile_id == pid && h.content_id == cid) =
            some { profile_id := pid, content_id := cid, last_timestamp := t } := by
          rw [find?_append_none _ _ _ hfnone]
          simp
        simp only [get_history_item, hown2, Bool.not_true, Bool.false_eq_true,
          if_false, ite_false, hfind2]
      · intro pid2 cid2 hle
        dsimp only
        rw [List.filter_append]
        cases hb : ((pid == pid2) && (cid == cid2)) with
        | true =>
            simp only [Bool.and_eq_true, beq_iff_eq] at hb
            obtain ⟨hbp, hbc⟩ := hb
            subst hbp
            subst hbc
            rw [filter_nil_of_any_false hmem]
            simp
        | false =>
            have hfl : List.filter (fun h => h.profile_id == pid2 && h.content_id == cid2) [({ profile_id := pid, content_id := cid, last_timestamp := t } : HistoryEntry)] = [] := by
              simp only [List.filter_cons, List.filter_nil]
              rw [show ((({ profile_id := pid, content_id := cid, last_timestamp := t } : HistoryEntry).profile_id == pid2) && (({ profile_id := pid, content_id := cid, last_timestamp := t } : HistoryEntry).content_id == cid2)) = false from hb]
              rfl
            rw [hfl, List.append_nil]
            exact hle

/-- Database with profile 1 under account 1, content 1, and a stored
history timestamp of 100 for that pair. -/
def histDB : DB :=
  { wlDB with viewing_history := [⟨1, 1, 100⟩] }

/-- C5, witness: overwriting the stored timestamp 100 with the smaller 5
succeeds and the GET returns exactly 5. -/
theorem history_upsert_last_write_wins_witness :
    histDB.profileOwned 1 1 = true ∧
    (update_history histDB 1 1 1 (some 5)).1 =
      { status := 200, body := .msg "History updated" } ∧
    get_history_item (update_history histDB 1 1 1 (some 5)).2 1 1 1 =
      ({ status := 200, body := .historyJson 1 5 },
       (update_history histDB 1 1 1 (some 5)).2) := by
  have h := history_upsert_last_write_wins histDB 1 1 1 5 (by decide) (by decide)
  exact ⟨by decide, h.1, h.2.1⟩

/-- C8: deleting an existing content answers 200 and removes every row
referencing that content: its seasons, the episodes of those seasons, its
media files, its genre links, its wishlist rows and its viewing-history
rows stay gone from the resulting state. -/
theorem content_delete_cascades (db : DB) (cid : Nat)
    (hc : db.contentExists cid = true) :
    (admin_delete_content db cid).1 =
      { status := 200, body := .msg "Content deleted" } ∧
    (∀ c ∈ (admin_delete_content db cid).2.contents, c.content_id ≠ cid) ∧
    (∀ s ∈ (admin_delete_content db cid).2.seasons, s.content_id ≠ cid) ∧
    (∀ e ∈ (admin_delete_content db cid).2.episodes, ∀ s ∈ db.seasons,
      s.content_id = cid → e.season_id ≠ s.season_id) ∧
    (∀ m ∈ (admin_delete_content db cid).2.media_files, m.content_id ≠ cid) ∧
    (∀ g ∈ (admin_delete_content db cid).2.content_genres, g.content_id ≠ cid) ∧
    (∀ w ∈ (admin_delete_content db cid).2.wishlist, w.content_id ≠ cid) ∧
    (∀ h ∈ (admin_delete_content db cid).2.viewing_history, h.content_id ≠ cid) := by
  have h1 : admin_delete_content db cid =
      ({ status := 200, body := .msg "Content deleted" },
       { db with
           contents := db.contents.filter (fun c => !(c.content_id == cid)),
           seasons := db.seasons.filter (fun s => !(s.content_id == cid)),
           episodes := db.episodes.filter (fun e =>
             !(((db.seasons.filter (fun s => s.content_id == cid)).map
               (fun s => s.season_id)).contains e.season_id)),
           media_files := db.media_files.filter (fun m => !(m.content_id == cid)),
           content_genres := db.content_genres.filter (fun g => !(g.content_id == cid)),
           wishlist := db.wishlist.filter (fun w => !(w.content_id == cid)),
           viewing_history :=
             db.viewing_history.filter (fun h => !(h.content_id == cid)) }) := by
    simp only [admin_delete_content, hc, Bool.not_true, Bool.false_eq_true,
      if_false, ite_false]
  rw [h1]
  dsimp only
  refine ⟨rfl, ?_, ?_, ?_, ?_, ?_, ?_, ?_⟩
  · intro c hcm
    have h2 := (List.mem_filter.mp hcm).2
    simp at h2
    exact h2
  · intro s hsm
    have h2 := (List.mem_filter.mp hsm).2
    simp at h2
    exact h2
  · intro e hem s hs hscid heq
    have h2 : (!(((db.seasons.filter (fun s2 => s2.content_id == cid)).map
        (fun s2 => s2.season_id)).contains e.season_id)) = true :=
      (List.mem_filter.mp hem).2
    have hmem2 : s.season_id ∈ (db.seasons.filter
        (fun s2 => s2.content_id == cid)).map (fun s2 => s2.season_id) :=
      List.mem_map.mpr ⟨s, List.mem_filter.mpr ⟨hs, by simp [hscid]⟩, rfl⟩
    have htrue : ((db.seasons.filter (fun s2 => s2.content_id == cid)).map
        (fun s2 => s2.season_id)).contains s.season_id = true :=
      List.elem_eq_true_of_mem hmem2
    rw [heq, htrue] at h2
    simp at h2
  · intro m hmm
    have h2 := (List.mem_filter.mp hmm).2
    simp at h2
    exact h2
  · intro g hgm
    have h2 := (List.mem_filter.mp hgm).2
    simp at h2
    exact h2
  · intro w hwm
    have h2 := (List.mem_filter.mp hwm).2
    simp at h2
    exact h2
  · intro h hhm
    have h2 := (List.mem_filter.mp hhm).2
    simp at h2
    exact h2

/-- Database where content 1 owns a season, an episode, a media file, a
genre link, a wishlist row and a history row, next to unrelated content
2. -/
def richDB : DB :=
  { emptyDB with
      contents := [⟨1, "Cosmic", "Show", "d", 2020⟩, ⟨2, "M", "Movie", "d", 2021⟩],
      seasons := [⟨1, 1, 1⟩],
      episodes := [⟨1, 1, "Pilot", 1⟩],
      media_files := [⟨1, 1, "1080p", "en", "/m"⟩],
      genres := [⟨1, "Drama"⟩],
      content_genres := [⟨1, 1⟩],
      profiles := [⟨1, 1, "A", "PG"⟩],
      wishlist := [⟨1, 1⟩],
      viewing_history := [⟨1, 1, 42⟩] }

/-- C8, witness: deleting content 1 from the populated database answers
200 and no remaining content row carries id 1. -/
theorem content_delete_cascades_witness :
    richDB.contentExists 1 = true ∧
    (admin_delete_content richDB 1).1 =
      { status := 200, body := .msg "Content deleted" } ∧
    (∀ c ∈ (admin_delete_content richDB 1).2.contents, c.content_id ≠ 1) := by
  have h := content_delete_cascades richDB 1 (by decide)
  exact ⟨by decide, h.1, h.2.1⟩

/-- Two guarded row updates with the same guard compose into one guarded
update, provided the first update does not change the guard key. -/
theorem map_guard_comp {α : Type} (l : List α) (q : α → Bool) (f g : α → α)
    (hq : ∀ x, q (f x) = q x) :
    (l.map (fun x => if q x then f x else x)).map (fun x => if q x then g x else x) =
      l.map (fun x => if q x then g (f x) else x) := by
  rw [List.map_map]
  apply List.map_congr_left
  intro x _
  cases hx : q x with
  | true => simp [Function.comp, hx, hq]
  | false => simp [Function.comp, hx]

/-- C9, counterexample: the name field supplied as the empty string is
not written: the update answers 200 but the stored name stays "Alice",
because the handler tests Python truthiness rather than presence. -/
theorem update_profile_empty_string_ignored :
    (update_profile oneProfileDB 1 1 (some "") none).1.status = 200 ∧
    (update_profile oneProfileDB 1 1 (some "") none).2.profiles =
      [⟨1, 1, "Alice", "PG-13"⟩] := by
  decide

/-- C9 (amended): the update handlers write exactly the fields supplied
with a truthy value (non-empty string; for release_year any non-null
value): on the row matching the id those fields take the supplied value
and every other field keeps its prior value, while every other row and
every other table is unchanged; fields that are absent, null, or an empty
string are not written. -/
theorem update_handlers_write_truthy_fields (db : DB) (aid pid cid : Nat)
    (name age title descr : Option String) (y : Option Int)
    (hown : db.profileOwned pid aid = true) :
    update_profile db aid pid name age =
      ({ status := 200, body := .msg "Profile updated" },
       { db with profiles := db.profiles.map (fun p =>
           if p.profile_id == pid then
             { p with
                 name := if truthyStr name then name.getD "" else p.name,
                 age_rating_pref :=
                   if truthyStr age then age.getD "" else p.age_rating_pref }
           else p) }) ∧
    admin_update_content db cid title descr y =
      ({ status := 200, body := .msg "Content updated" },
       { db with contents := db.contents.map (fun c =>
           if c.content_id == cid then
             { c with
                 title := if truthyStr title then title.getD "" else c.title,
                 description :=
                   if truthyStr descr then descr.getD "" else c.description,
                 release_year := y.getD c.release_year }
           else c) }) := by
  constructor
  · cases hn : truthyStr name <;> cases ha2 : truthyStr age <;>
      (simp only [update_profile, hown, Bool.not_true, Bool.not_false,
         Bool.false_eq_true, if_false, ite_false, eq_self_iff_true, if_true,
         ite_true, hn, ha2, ite_self]
       try rw [map_guard_comp _ _ _ _ (fun x => rfl)]
       all_goals simp
       all_goals (intro a ha3; by_cases hp : a.profile_id = pid <;> simp [hp]))
  · cases ht : truthyStr title <;> cases hd : truthyStr descr <;> cases y <;>
      (simp only [admin_update_content, Bool.not_true, Bool.not_false,
         Bool.false_eq_true, if_false, ite_false, eq_self_iff_true, if_true,
         ite_true, ht, hd, Option.getD_none, Option.getD_some, ite_self]
       try rw [map_guard_comp _ _ _ _ (fun x => rfl)]
       try rw [map_guard_comp _ _ _ _ (fun x => rfl)]
       all_goals simp
       all_goals (intro a ha3; by_cases hp : a.content_id = cid <;> simp [hp]))

/-- C9, witness: updating only the name of owned profile 1 writes the
new name and keeps the age rating, the other columns and all other
tables. -/
theorem update_handlers_write_truthy_fields_witness :
    oneProfileDB.profileOwned 1 1 = true ∧
    (update_profile oneProfileDB 1 1 (some "Bo") none).2.profiles =
      [⟨1, 1, "Bo", "PG-13"⟩] := by
  have h := update_handlers_write_truthy_fields oneProfileDB 1 1 1 (some "Bo") none
    (some "T") none none (by decide)
  refine ⟨by decide, ?_⟩
  rw [h.1]
  decide
